import Mathlib

/-
Verification of the audio ingestion and normalization pipeline of the
`aiapprecorder` service (`src/main.py`).  The Python code is shallowly
embedded: pure fragments become Lean functions, exceptions become
`Except`/`Option` values, machine floats are idealized as exact rationals,
and the external effectful capabilities (pydub/ffmpeg conversion, the
scipy WAV reader, the recognition model, the filesystem) are passed in as
explicit oracle parameters so that the control flow of the handlers can be
reasoned about for every possible outcome of those capabilities.
-/

namespace AiAppRec

/-- Python truthiness of an optional string field: `None` and the empty
string are falsy, every other string is truthy. -/
def strTruthy (o : Option String) : Bool := o.getD "" != ""

/-- ASCII lowercasing, modelling Python `str.lower()` on the ASCII
strings that occur as extensions and content types. -/
def strLower (s : String) : String := String.mk (s.data.map Char.toLower)

/- ---------------------------------------------------------------
Base64 decoding, modelling CPython `base64.b64decode` in its default
non-strict mode (as called at src/main.py line 711): characters outside
the base64 alphabet are discarded, `=` padding terminates a quad, and
decoding fails only when the data characters left over do not form
complete quads.  This mirrors the state machine of CPython
`binascii.a2b_base64`.
--------------------------------------------------------------- -/

/-- Value of a character in the standard base64 alphabet, `none` for any
character outside the alphabet (such characters are discarded by the
non-strict decoder). -/
def b64Index (c : Char) : Option ℕ :=
  if 'A' ≤ c ∧ c ≤ 'Z' then some (c.toNat - 65)
  else if 'a' ≤ c ∧ c ≤ 'z' then some (c.toNat - 97 + 26)
  else if '0' ≤ c ∧ c ≤ '9' then some (c.toNat - 48 + 52)
  else if c = '+' then some 62
  else if c = '/' then some 63
  else none

/-- State of the base64 decoding loop: position inside the current
4-character quad, pending bits, count of pending pad characters, output
bytes so far, and whether a pad sequence terminated the input. -/
structure B64State where
  quadPos : ℕ
  leftchar : ℕ
  pads : ℕ
  acc : List ℕ
  done : Bool
deriving DecidableEq, Repr

/-- One step of the CPython `a2b_base64` loop (non-strict mode): pads are
significant only at quad positions 2 and 3, characters outside the
alphabet are skipped, and each completed 6-bit group emits output bytes
as soon as 8 bits are available. -/
def b64Step (st : B64State) (c : Char) : B64State :=
  if st.done then st
  else if c = '=' then
    if 2 ≤ st.quadPos ∧ 4 ≤ st.quadPos + (st.pads + 1) then
      { st with done := true }
    else if 2 ≤ st.quadPos then
      { st with pads := st.pads + 1 }
    else st
  else
    match b64Index c with
    | none => st
    | some v =>
      let bits := st.leftchar * 64 + v
      match st.quadPos with
      | 0 => { st with quadPos := 1, leftchar := v, pads := 0 }
      | 1 => { st with quadPos := 2, leftchar := bits % 16, acc := st.acc ++ [bits / 16], pads := 0 }
      | 2 => { st with quadPos := 3, leftchar := bits % 4, acc := st.acc ++ [bits / 4], pads := 0 }
      | _ => { st with quadPos := 0, leftchar := 0, acc := st.acc ++ [bits], pads := 0 }

/-- Initial decoder state. -/
def b64Init : B64State := ⟨0, 0, 0, [], false⟩

/-- The `binascii.a2b_base64` loop over the byte string: `none` models
`binascii.Error` (incorrect padding / dangling data characters).  This is
the stage at which non-alphabet bytes are discarded; on the `str` path of
`base64.b64decode` it only ever runs on ASCII characters (see
`b64decode`). -/
def b64decodeList (cs : List Char) : Option (List ℕ) :=
  let st := cs.foldl b64Step b64Init
  if st.done ∨ st.quadPos = 0 then some st.acc else none

/-- Whether a character survives Python `str.encode('ascii')`: code
point below 128. -/
def isAsciiChar (c : Char) : Bool := c.toNat < 128

/-- `base64.b64decode` on a Python `str` payload (default, non-strict
mode), as called at src/main.py line 711: the string is first converted
to bytes via `encode('ascii')` (`_bytes_from_decode_data`), which raises
`ValueError` on any non-ASCII character; only then does the lenient
`a2b_base64` loop run. -/
def b64decode (s : String) : Option (List ℕ) :=
  if s.data.all isAsciiChar then b64decodeList s.data else none

/- ---------------------------------------------------------------
pathlib `Path(...).suffix` (used at src/main.py lines 308, 600, 725).
--------------------------------------------------------------- -/

/-- Does a character list begin with a dot. -/
def startsWithDot (cs : List Char) : Bool :=
  match cs with
  | [] => false
  | c :: _ => c = '.'

/-- Strip trailing path separators, as pathlib does when computing the
final component `name`. -/
def stripTrailingSlashes (cs : List Char) : List Char :=
  (cs.reverse.dropWhile (fun c => c = '/')).reverse

/-- Final path component (pathlib `Path(p).name` on POSIX). -/
def lastComponent (cs : List Char) : List Char :=
  (stripTrailingSlashes cs).foldl (fun acc c => if c = '/' then [] else acc ++ [c]) []

/-- pathlib suffix rule on a file name: the segment from the last dot,
provided that dot is neither the first nor the last character of the
name. -/
def suffixOfName (name : List Char) : List Char :=
  let post := name.reverse.takeWhile (fun c => c != '.')
  if post.length = name.length then []
  else if 0 < name.length - 1 - post.length ∧ post ≠ [] then '.' :: post.reverse
  else []

/-- `Path(p).suffix`. -/
def pathSuffix (p : String) : String :=
  String.mk (suffixOfName (lastComponent p.data))

/- ---------------------------------------------------------------
Format resolution of the base64 variant (src/main.py lines 717-757).
--------------------------------------------------------------- -/

/-- The fixed content-type table of `transcribe_base64_audio`
(src/main.py lines 729-737); `none` when the content type is not in the
table. -/
def content_type_map (ct : String) : Option String :=
  if ct = "audio/wav" then some ".wav"
  else if ct = "audio/mpeg" then some ".mp3"
  else if ct = "audio/mp4" then some ".m4a"
  else if ct = "audio/x-m4a" then some ".m4a"
  else if ct = "audio/flac" then some ".flac"
  else if ct = "audio/ogg" then some ".ogg"
  else if ct = "audio/aac" then some ".aac"
  else none

/-- Byte-signature sniffing fallback of `transcribe_base64_audio`
(src/main.py lines 741-757).  Note the faithful rendering of the Python
comparison `header[:4] == b'\x00\x00\x00'`: a four-byte slice is compared
against a three-byte literal, so that branch can never be taken when at
least 4 bytes are present. -/
def sniffExt (d : List ℕ) : String :=
  if 4 ≤ d.length then
    if d.take 4 = [82, 73, 70, 70] ∨ d.take 4 = [82, 73, 70, 88] then ".wav"
    else if d.take 3 = [73, 68, 51] ∨ (2 ≤ d.length ∧ d.take 2 = [255, 251]) then ".mp3"
    else if d.take 4 = [102, 76, 97, 67] then ".flac"
    else if d.take 4 = [79, 103, 103, 83] then ".ogg"
    else if d.take 4 = [0, 0, 0] then ".m4a"
    else ".m4a"
  else ".m4a"

/-- Format resolution cascade of `transcribe_base64_audio` (src/main.py
lines 719-757): explicit `file_extension` field (dot prepended when
missing), then `Path(filename).suffix.lower() or ".m4a"` when a filename
is present, then the content-type table with default `.m4a` when a
content type is present, and byte sniffing only when all three fields are
absent or empty. -/
def resolveExt (file_extension filename content_type : Option String)
    (audio_data : List ℕ) : String :=
  let fe0 := file_extension.getD ""
  let fe1 := if fe0 ≠ "" ∧ ¬ startsWithDot fe0.data then "." ++ fe0 else fe0
  if fe1 ≠ "" then fe1
  else if strTruthy filename then
    let s := strLower (pathSuffix (filename.getD ""))
    if s ≠ "" then s else ".m4a"
  else if strTruthy content_type then
    (content_type_map (content_type.getD "")).getD ".m4a"
  else sniffExt audio_data

/-- Modelled from the spec: the Format Resolver cascade as the spec and
claim C2 word it — the filename extension is used only when the filename
has a recognized suffix (otherwise resolution falls through), and the
content type is used only when it is in the table (otherwise resolution
falls through to byte sniffing and then the default).  This definition
exists solely for the refinement comparison against `resolveExt`. -/
def specResolveExt (file_extension filename content_type : Option String)
    (audio_data : List ℕ) : String :=
  let recognized : List String := [".wav", ".mp3", ".m4a", ".flac", ".ogg", ".aac"]
  let fe0 := file_extension.getD ""
  let fe1 := if fe0 ≠ "" ∧ ¬ startsWithDot fe0.data then "." ++ fe0 else fe0
  if fe1 ≠ "" then fe1
  else if strTruthy filename ∧ strLower (pathSuffix (filename.getD "")) ∈ recognized then
    strLower (pathSuffix (filename.getD ""))
  else if strTruthy content_type ∧ (content_type_map (content_type.getD "")).isSome then
    (content_type_map (content_type.getD "")).getD ".m4a"
  else sniffExt audio_data

/- ---------------------------------------------------------------
Conversion routing of `preprocess_audio` (src/main.py lines 304-354).
--------------------------------------------------------------- -/

/-- RIFF/RIFX signature check on the first four bytes of the file
(src/main.py lines 321-327): `is_wav` is set exactly when the first four
bytes equal `RIFF` or `RIFX`. -/
def isWavHeader (d : List ℕ) : Bool :=
  d.take 4 = [82, 73, 70, 70] ∨ d.take 4 = [82, 73, 70, 88]

/-- The `should_convert` routing decision of `preprocess_audio`
(src/main.py lines 336-354): when the file has a non-empty extension the
extension alone decides (convert iff it is not `.wav`); the header check
decides only when there is no extension. -/
def shouldConvert (file_ext : String) (is_wav : Bool) : Bool :=
  if file_ext ≠ "" then file_ext ≠ ".wav"
  else !is_wav

/-- The routing decision as `preprocess_audio` actually derives its
inputs: the extension is `Path(path).suffix.lower()` and the header flag
comes from the first bytes of the saved file. -/
def preprocessShouldConvert (path : String) (fileBytes : List ℕ) : Bool :=
  shouldConvert (strLower (pathSuffix path)) (isWavHeader fileBytes)

/-- Modelled from the spec: the routing rule as the spec and claim C1
word it — transcoding is invoked whenever the resolved format is not wav,
or it is wav but the header was not confirmed; it is skipped only when
the format is wav and the header is confirmed.  This definition exists
solely for the refinement comparison against `shouldConvert`. -/
def specShouldConvert (resolvedIsWav : Bool) (headerConfirmed : Bool) : Bool :=
  !(resolvedIsWav && headerConfirmed)

/- ---------------------------------------------------------------
Python exceptions, as far as the handlers distinguish them.
--------------------------------------------------------------- -/

/-- The exception classes the handlers' `except` clauses distinguish:
`fastapi.HTTPException` (raised with an explicit status), `ValueError`
(which the handlers map to a 400 response) and every other exception
(mapped to 500). -/
inductive PyExc where
  | httpException (status : ℕ) (detail : String)
  | valueError (msg : String)
  | otherError (msg : String)
deriving DecidableEq, Repr

/-- Whether an exception is caught by an `except ValueError` clause.
`HTTPException` is not a `ValueError`. -/
def isValueError : PyExc → Bool
  | .valueError _ => true
  | _ => false

/- ---------------------------------------------------------------
Signal Normalizer: the numeric steps of `preprocess_audio`
(src/main.py lines 436-471).  numpy float arrays are idealized as exact
rational sequences.
--------------------------------------------------------------- -/

/-- The integer sample encodings `wavfile.read` can hand back, as far as
lines 437-442 distinguish them; every other dtype passes through
unchanged. -/
inductive Dtype where
  | int16
  | int32
  | uint8
  | float
deriving DecidableEq, Repr

/-- The array returned by `wavfile.read`: one-dimensional (mono) or
two-dimensional with one frame per time step (multi-channel). -/
inductive RawSamples where
  | mono (xs : List ℚ)
  | multi (frames : List (List ℚ))
deriving DecidableEq, Repr

/-- Sample-encoding conversion (src/main.py lines 437-442): 16-bit signed
divides by 32768, 32-bit signed by 2147483648, unsigned 8-bit subtracts
128 then divides by 128, anything else is unchanged. -/
def scaleSample : Dtype → ℚ → ℚ
  | .int16, v => v / 32768
  | .int32, v => v / 2147483648
  | .uint8, v => (v - 128) / 128
  | .float, v => v

/-- Elementwise application of the encoding conversion. -/
def scaleAll (d : Dtype) : RawSamples → RawSamples
  | .mono xs => .mono (xs.map (scaleSample d))
  | .multi fs => .multi (fs.map (fun f => f.map (scaleSample d)))

/-- Stereo downmix (src/main.py lines 445-446): multi-channel audio is
averaged across channels (`np.mean(audio, axis=1)`); mono passes
through. -/
def downmix : RawSamples → List ℚ
  | .mono xs => xs
  | .multi fs => fs.map (fun f => f.sum / (f.length : ℚ))

/-- The external bandlimited resampler (`scipy.signal.resample`), used at
src/main.py line 451.  Its essential contract, the only part the
pipeline relies on, is that it returns exactly `num` samples; the values
are abstracted here by nearest-index selection. -/
def resampleTo (num : ℕ) (xs : List ℚ) : List ℚ :=
  (List.range num).map (fun i => xs.getD (i * xs.length / num) 0)

/-- Resampling step (src/main.py lines 449-451): when the source rate
differs from 16000, the target count is `int(len(audio) * 16000 / sr)`
(floor, as both operands are non-negative). -/
def resampleStep (sr : ℕ) (xs : List ℚ) : List ℚ :=
  if sr ≠ 16000 then resampleTo (xs.length * 16000 / sr) xs else xs

/-- `np.max(np.abs(xs))` for a non-empty sequence; `0` for the empty one
(the empty case is never used on the success path because numpy raises
there, see `normalizeStep`). -/
def maxAbs (xs : List ℚ) : ℚ := xs.foldr (fun x m => max |x| m) 0

/-- Peak normalization (src/main.py lines 453-455).  `np.max` raises a
`ValueError` on a zero-size array, so the empty sequence is an error;
otherwise, when the peak is positive every sample is divided by it, and
an all-zero signal passes through with no division performed. -/
def normalizeStep (xs : List ℚ) : Except PyExc (List ℚ) :=
  if xs = [] then
    .error (.valueError "zero-size array to reduction operation maximum which has no identity")
  else if maxAbs xs > 0 then .ok (xs.map (fun x => x / maxAbs xs))
  else .ok xs

/-- Duration validation (src/main.py lines 460-469): strictly below 0.5
seconds raises the too-short `ValueError`, strictly above 30 seconds the
too-long one; otherwise the audio is returned unchanged together with its
duration (no truncation or padding). -/
def validateLength (audio : List ℚ) (duration : ℚ) : Except PyExc (List ℚ × ℚ) :=
  if duration < 1/2 then .error (.valueError "Audio too short")
  else if duration > 30 then .error (.valueError "Audio too long")
  else .ok (audio, duration)

/-- The four normalizer steps of claim C8 in source order: encoding
conversion, downmix, resample, peak-normalize (src/main.py lines
436-455). -/
def runNormalizerSteps (sr : ℕ) (d : Dtype) (raw : RawSamples) : Except PyExc (List ℚ) :=
  normalizeStep (resampleStep sr (downmix (scaleAll d raw)))

/-- The numeric part of `preprocess_audio` (src/main.py lines 436-471):
normalizer steps, then `duration = len(audio) / 16000`, then duration
validation. -/
def preprocessSamples (sr : ℕ) (d : Dtype) (raw : RawSamples) :
    Except PyExc (List ℚ × ℚ) :=
  match runNormalizerSteps sr d raw with
  | .error e => .error e
  | .ok a => validateLength a ((a.length : ℚ) / 16000)

/- ---------------------------------------------------------------
`preprocess_audio` with its converted-WAV artifact lifecycle
(src/main.py lines 292-485).  The pydub/ffmpeg conversion and the scipy
WAV read are external effects, passed in as outcome oracles; whether
`os.unlink` of the converted file fails is a further environment flag.
--------------------------------------------------------------- -/

/-- Result of a `preprocess_audio` call together with the fate of the
intermediate converted-WAV artifact. -/
structure PreprocessOutcome where
  result : Except PyExc (List ℚ × ℚ)
  convCreated : Bool
  convDeleted : Bool
deriving Repr

/-- `preprocess_audio` (src/main.py lines 292-485).  `convert` is the
outcome of `convert_audio_to_wav` plus the post-conversion header
verification (lines 365-394); `wavRead` is the outcome of
`scipy.io.wavfile.read` (line 420); `cleanupRaises` says whether deleting
the converted artifact fails.  A conversion failure is re-raised as
`ValueError` (line 409) after a guarded unlink (lines 396-402); a read
failure is re-raised as `ValueError` (lines 422-434); the `finally`
block (lines 477-485) deletes the converted artifact with the deletion
failure swallowed. -/
def preprocess_audio (file_ext : String) (fileBytes : List ℕ)
    (convert : Except PyExc Unit)
    (wavRead : Except String (ℕ × Dtype × RawSamples))
    (cleanupRaises : Bool) : PreprocessOutcome :=
  let conv := shouldConvert file_ext (isWavHeader fileBytes)
  let afterRead : Except PyExc (List ℚ × ℚ) :=
    match wavRead with
    | .error m => .error (.valueError ("Failed to read WAV file: " ++ m))
    | .ok (sr, d, raw) => preprocessSamples sr d raw
  if conv then
    match convert with
    | .error _ =>
      { result := .error (.valueError "Audio conversion failed"),
        convCreated := true,
        convDeleted := !cleanupRaises }
    | .ok _ =>
      { result := afterRead,
        convCreated := true,
        convDeleted := !cleanupRaises }
  else
    { result := afterRead, convCreated := false, convDeleted := false }

/- ---------------------------------------------------------------
The three ingestion handlers (src/main.py lines 581-848).  The saved
upload is the request-level temporary artifact; the preprocessing and
recognition stages are outcome oracles.
--------------------------------------------------------------- -/

/-- The pydantic request model of the base64 variant (src/main.py lines
83-99). -/
structure Base64TranscriptionRequest where
  audio : Option String
  audio_base64 : Option String
  filename : Option String
  content_type : Option String
  file_extension : Option String
deriving DecidableEq, Repr

/-- The `validate_audio_field` model validator (src/main.py lines 90-95):
at least one of the two synonymous audio fields must be a truthy
string. -/
def validate_audio_field (r : Base64TranscriptionRequest) : Bool :=
  strTruthy r.audio || strTruthy r.audio_base64

/-- `get_audio_data` (src/main.py lines 97-99): Python
`self.audio or self.audio_base64 or ""`. -/
def get_audio_data (r : Base64TranscriptionRequest) : String :=
  if strTruthy r.audio then r.audio.getD ""
  else if strTruthy r.audio_base64 then r.audio_base64.getD ""
  else ""

/-- Observable outcome of one handler invocation: the HTTP status of the
response, the exception that determined it (if any), and the fate of the
saved-upload temporary artifact. -/
structure HandlerOutcome where
  status : ℕ
  raised : Option PyExc
  tempCreated : Bool
  tempDeleted : Bool
deriving DecidableEq, Repr

/-- The `except` clauses of `transcribe_base64_audio` and of
`transcribe_audio_file` (src/main.py lines 680-689 and 791-796): a
`ValueError` becomes a 400 response, every other exception — including a
`fastapi.HTTPException` raised inside the `try` block, which is not a
`ValueError` — is re-wrapped into a 500 response. -/
def exceptClauses (e : PyExc) : ℕ :=
  if isValueError e then 400 else 500

/-- `transcribe_base64_audio` (src/main.py lines 692-796).  `pre` is the
outcome of `preprocess_audio` on the decoded bytes saved under the
resolved extension, `rec` the outcome of `transcribe_audio`, and
`unlinkRaises` says whether the final `os.unlink(temp_path)` (line 789,
not guarded by any `try`) fails.  Pydantic runs `validate_audio_field`
before the handler body; its `ValueError` surfaces as a 422 validation
response with no artifact created. -/
def transcribe_base64_audio (r : Base64TranscriptionRequest)
    (pre : List ℕ → String → Except PyExc (List ℚ × ℚ))
    (rec : List ℚ → Except PyExc (String × ℚ))
    (unlinkRaises : Bool) : HandlerOutcome :=
  if validate_audio_field r then
    let s := get_audio_data r
    if s = "" then
      { status := 500,
        raised := some (.httpException 400 "Missing audio or audio_base64 field in request"),
        tempCreated := false, tempDeleted := false }
    else
      match b64decode s with
      | none =>
        { status := 500,
          raised := some (.httpException 400 "Invalid base64 audio data"),
          tempCreated := false, tempDeleted := false }
      | some audio_data =>
        let ext := resolveExt r.file_extension r.filename r.content_type audio_data
        let inner : Option PyExc :=
          match pre audio_data ext with
          | .error e => some e
          | .ok (arr, _) =>
            match rec arr with
            | .error e => some e
            | .ok _ => none
        if unlinkRaises then
          { status := 500, raised := some (.otherError "unlink failed"),
            tempCreated := true, tempDeleted := false }
        else
          match inner with
          | none =>
            { status := 200, raised := none, tempCreated := true, tempDeleted := true }
          | some e =>
            { status := exceptClauses e, raised := some e,
              tempCreated := true, tempDeleted := true }
  else
    { status := 422,
      raised := some (.valueError "Either audio or audio_base64 field must be provided"),
      tempCreated := false, tempDeleted := false }

/-- `transcribe_audio_file`, the multipart upload variant (src/main.py
lines 581-689).  The upload is always saved to a temporary file; the
`finally` block (lines 671-678) deletes it inside its own
`try`/`except`, so a deletion failure is swallowed and the primary
outcome stands. -/
def transcribe_audio_file (pre : Except PyExc (List ℚ × ℚ))
    (rec : List ℚ → Except PyExc (String × ℚ))
    (unlinkRaises : Bool) : HandlerOutcome :=
  let inner : Option PyExc :=
    match pre with
    | .error e => some e
    | .ok (arr, _) =>
      match rec arr with
      | .error e => some e
      | .ok _ => none
  { status := match inner with | none => 200 | some e => exceptClauses e,
    raised := inner,
    tempCreated := true,
    tempDeleted := !unlinkRaises }

/-- `transcribe_audio_url` (src/main.py lines 799-848).  A non-200 remote
status raises `HTTPException(400)` inside the `try`; the only `except`
clause (lines 845-848) catches every exception — that `HTTPException`
included — and re-wraps it into a 500.  The `finally` unlink (lines
841-843) is unguarded, as in the base64 variant. -/
def transcribe_audio_url (fetchStatus : ℕ)
    (pre : Except PyExc (List ℚ × ℚ))
    (rec : List ℚ → Except PyExc (String × ℚ))
    (unlinkRaises : Bool) : HandlerOutcome :=
  if fetchStatus ≠ 200 then
    { status := 500,
      raised := some (.httpException 400 "Failed to download audio from URL"),
      tempCreated := false, tempDeleted := false }
  else
    let inner : Option PyExc :=
      match pre with
      | .error e => some e
      | .ok (arr, _) =>
        match rec arr with
        | .error e => some e
        | .ok _ => none
    if unlinkRaises then
      { status := 500, raised := some (.otherError "unlink failed"),
        tempCreated := true, tempDeleted := false }
    else
      match inner with
      | none =>
        { status := 200, raised := none, tempCreated := true, tempDeleted := true }
      | some e =>
        { status := 500, raised := some e, tempCreated := true, tempDeleted := true }

/-- A client-error HTTP status (4xx). -/
def isClientError (n : ℕ) : Prop := 400 ≤ n ∧ n < 500

/-- A server-error HTTP status (5xx). -/
def isServerError (n : ℕ) : Prop := 500 ≤ n

/- ---------------------------------------------------------------
Shared helper lemmas.
--------------------------------------------------------------- -/

/-- A truthy optional string is a non-empty string. -/
lemma strTruthy_getD (o : Option String) (h : strTruthy o = true) : o.getD "" ≠ "" := by
  simpa [strTruthy] using h

/-- When the pydantic validator passes, `get_audio_data` is non-empty. -/
lemma validate_get_ne (r : Base64TranscriptionRequest)
    (h : validate_audio_field r = true) : get_audio_data r ≠ "" := by
  unfold validate_audio_field at h
  unfold get_audio_data
  cases ha : strTruthy r.audio with
  | true => simpa [ha] using strTruthy_getD r.audio ha
  | false =>
    rw [ha] at h
    simp only [Bool.false_or] at h
    simpa [ha, h] using strTruthy_getD r.audio_base64 h

/-- `maxAbs` is non-negative. -/
lemma maxAbs_nonneg (xs : List ℚ) : 0 ≤ maxAbs xs := by
  induction xs with
  | nil => simp [maxAbs]
  | cons x t ih => simp only [maxAbs, List.foldr] at ih ⊢; exact le_max_of_le_right ih

/-- Dividing every sample by a positive constant divides the peak. -/
lemma maxAbs_map_div (xs : List ℚ) (m : ℚ) (hm : 0 < m) :
    maxAbs (xs.map (fun x => x / m)) = maxAbs xs / m := by
  induction xs with
  | nil => simp [maxAbs]
  | cons x t ih =>
    simp only [maxAbs, List.foldr, List.map] at ih ⊢
    rw [abs_div, abs_of_pos hm, ih, max_div_div_right hm.le]

/- ---------------------------------------------------------------
Claim C1: conversion routing for wav-resolved files with an unconfirmed
header.
--------------------------------------------------------------- -/

/-- C1, counterexample: a file saved with the `.wav` extension whose
first four bytes are not RIFF/RIFX is NOT routed through transcoding
(`should_convert` is false), while the claimed routing rule says
transcoding must be invoked whenever the header is unconfirmed. -/
theorem c1_counterexample :
    preprocessShouldConvert "/tmp/tmpupload.wav" [0, 0, 0, 32] = false ∧
    isWavHeader [0, 0, 0, 32] = false ∧
    specShouldConvert true (isWavHeader [0, 0, 0, 32]) = true := by
  decide

/-- C1 (amended): transcoding is skipped whenever the file extension is
`.wav`, regardless of the header check; a non-empty extension other than
`.wav` always routes through transcoding; only an extension-less file is
routed by the header check (convert exactly when the header is
unconfirmed). -/
theorem c1_theorem :
    (∀ is_wav : Bool, shouldConvert ".wav" is_wav = false) ∧
    (∀ (ext : String) (is_wav : Bool), ext ≠ "" → ext ≠ ".wav" →
        shouldConvert ext is_wav = true) ∧
    (∀ is_wav : Bool, shouldConvert "" is_wav = !is_wav) := by
  refine ⟨fun is_wav => by simp [shouldConvert], ?_, fun is_wav => by simp [shouldConvert]⟩
  intro ext is_wav h1 h2
  simp [shouldConvert, h1, h2]

/-- C1, witness: an `.mp3` file with a (spurious) RIFF header is still
converted. -/
theorem c1_witness : shouldConvert ".mp3" true = true :=
  c1_theorem.2.1 ".mp3" true (by decide) (by decide)

/- ---------------------------------------------------------------
Claim C2: the format-resolution cascade of the base64 variant.
--------------------------------------------------------------- -/

/-- C2, counterexample: with no explicit hint, a filename without any
suffix, and the mapped content type `audio/flac`, the claimed cascade
falls through to the content-type table and yields `.flac`, but the code
resolves `.m4a` immediately at the filename step (the
`suffix or ".m4a"` default) without ever consulting the content type. -/
theorem c2_counterexample :
    resolveExt none (some "audio") (some "audio/flac") [] = ".m4a" ∧
    specResolveExt none (some "audio") (some "audio/flac") [] = ".flac" ∧
    (".m4a" : String) ≠ ".flac" := by
  decide

/-- C2 (amended): resolution is a first-match cascade over the four hint
sources, but with no fall-through on empty results: a present filename
always decides (its lowercased suffix when non-empty — recognized or not
— and the default `.m4a` otherwise), a present content type always
decides (the table value, defaulting to `.m4a` for unmapped types), and
byte-signature sniffing runs only when the explicit hint, the filename
and the content type are all absent or empty. -/
theorem c2_theorem :
    (∀ (fe : String) (fn ct : Option String) (d : List ℕ), fe ≠ "" →
        resolveExt (some fe) fn ct d =
          (if ¬ startsWithDot fe.data then "." ++ fe else fe)) ∧
    (∀ (fe fn ct : Option String) (d : List ℕ),
        strTruthy fe = false → strTruthy fn = true →
        resolveExt fe fn ct d =
          (if strLower (pathSuffix (fn.getD "")) ≠ ""
           then strLower (pathSuffix (fn.getD "")) else ".m4a")) ∧
    (∀ (fe fn ct : Option String) (d : List ℕ),
        strTruthy fe = false → strTruthy fn = false → strTruthy ct = true →
        resolveExt fe fn ct d = (content_type_map (ct.getD "")).getD ".m4a") ∧
    (∀ (fe fn ct : Option String) (d : List ℕ),
        strTruthy fe = false → strTruthy fn = false → strTruthy ct = false →
        resolveExt fe fn ct d = sniffExt d) := by
  have hfalsy : ∀ o : Option String, strTruthy o = false → o.getD "" = "" := by
    intro o h; simpa [strTruthy] using h
  refine ⟨?_, ?_, ?_, ?_⟩
  · intro fe fn ct d h
    cases hd : startsWithDot fe.data with
    | true =>
      simp [resolveExt, h, hd]
    | false =>
      have hne : ("." ++ fe) ≠ "" := by
        intro hc
        have : ("." ++ fe).data = ("" : String).data := by rw [hc]
        simp [String.data_append] at this
      simp [resolveExt, h, hd, hne]
  · intro fe fn ct d hfe hfn
    simp [resolveExt, hfalsy fe hfe, hfn]
  · intro fe fn ct d hfe hfn hct
    simp [resolveExt, hfalsy fe hfe, hfn, hct]
  · intro fe fn ct d hfe hfn hct
    simp [resolveExt, hfalsy fe hfe, hfn, hct]

/-- C2, witness: with only a content type present, the table decides. -/
theorem c2_witness :
    resolveExt none none (some "audio/ogg") [] =
      (content_type_map ((some "audio/ogg").getD "")).getD ".m4a" :=
  c2_theorem.2.2.1 none none (some "audio/ogg") [] (by decide) (by decide) (by decide)

/- ---------------------------------------------------------------
Claim C3: which errors surface as client-error vs server-error
responses.
--------------------------------------------------------------- -/

/-- C3, counterexample: a malformed base64 payload (`"abc"`) produces a
500 server-error response, not the claimed client-error, because the
`HTTPException(400)` raised for it is re-caught by the handler's generic
`except Exception` clause; a failed URL download likewise produces 500;
and a WAV parse failure after transcoding (a `ValueError`) produces a
400 client-error, not the claimed server-error. -/
theorem c3_counterexample :
    (transcribe_base64_audio ⟨some "abc", none, none, none, none⟩
        (fun _ _ => .ok ([1], 1)) (fun _ => .ok ("", 1)) false).status = 500 ∧
    ¬ isClientError (transcribe_base64_audio ⟨some "abc", none, none, none, none⟩
        (fun _ _ => .ok ([1], 1)) (fun _ => .ok ("", 1)) false).status ∧
    (transcribe_audio_url 404 (.ok ([1], 1)) (fun _ => .ok ("", 1)) false).status = 500 ∧
    (transcribe_base64_audio ⟨some "AAAA", none, none, none, none⟩
        (fun _ _ => .error (.valueError "Failed to read WAV file: x"))
        (fun _ => .ok ("", 1)) false).status = 400 ∧
    ¬ isServerError (transcribe_base64_audio ⟨some "AAAA", none, none, none, none⟩
        (fun _ _ => .error (.valueError "Failed to read WAV file: x"))
        (fun _ => .ok ("", 1)) false).status := by
  refine ⟨by decide, ?_, by decide, by decide, ?_⟩ <;> simp [isClientError, isServerError] <;> decide

/-- C3 (amended): in the base64 handler only `ValueError`-class failures
map to the 400 client-error response — WAV parse failures after
transcoding included, so they surface as client errors; the
`HTTPException(400)` raised for invalid base64 is re-caught by the
generic clause and surfaces as a 500 server error, as does every
non-`ValueError` failure; in the URL variant even the failed-download
`HTTPException(400)` surfaces as 500. -/
theorem c3_theorem :
    (∀ (r : Base64TranscriptionRequest) pre rec,
        validate_audio_field r = true →
        b64decode (get_audio_data r) = none →
        isServerError (transcribe_base64_audio r pre rec false).status ∧
        (transcribe_base64_audio r pre rec false).status = 500) ∧
    (∀ (r : Base64TranscriptionRequest) pre rec (dt : List ℕ) (m : String),
        validate_audio_field r = true →
        b64decode (get_audio_data r) = some dt →
        pre dt (resolveExt r.file_extension r.filename r.content_type dt) =
          .error (.valueError m) →
        isClientError (transcribe_base64_audio r pre rec false).status ∧
        (transcribe_base64_audio r pre rec false).status = 400) ∧
    (∀ (r : Base64TranscriptionRequest) pre rec (dt : List ℕ) (m : String),
        validate_audio_field r = true →
        b64decode (get_audio_data r) = some dt →
        pre dt (resolveExt r.file_extension r.filename r.content_type dt) =
          .error (.otherError m) →
        (transcribe_base64_audio r pre rec false).status = 500) ∧
    (∀ (fetchStatus : ℕ) pre rec, fetchStatus ≠ 200 →
        (transcribe_audio_url fetchStatus pre rec false).status = 500) := by
  refine ⟨?_, ?_, ?_, ?_⟩
  · intro r pre rec hval hdec
    have hne := validate_get_ne r hval
    constructor <;> simp [transcribe_base64_audio, hval, hne, hdec, isServerError]
  · intro r pre rec dt m hval hdec hpre
    have hne := validate_get_ne r hval
    constructor <;>
      simp [transcribe_base64_audio, hval, hne, hdec, hpre, exceptClauses, isValueError,
        isClientError]
  · intro r pre rec dt m hval hdec hpre
    have hne := validate_get_ne r hval
    simp [transcribe_base64_audio, hval, hne, hdec, hpre, exceptClauses, isValueError]
  · intro fetchStatus pre rec h
    simp [transcribe_audio_url, h]

/-- C3, witness: a too-short audio failure (a `ValueError` from duration
validation) surfaces as a 400 client error through the base64 handler. -/
theorem c3_witness :
    isClientError (transcribe_base64_audio ⟨some "AAAA", none, none, none, none⟩
        (fun _ _ => .error (.valueError "Audio too short"))
        (fun _ => .ok ("", 1)) false).status :=
  (c3_theorem.2.1 ⟨some "AAAA", none, none, none, none⟩
    (fun _ _ => .error (.valueError "Audio too short")) (fun _ => .ok ("", 1))
    [0, 0, 0] "Audio too short" (by decide) (by decide) rfl).1

/- ---------------------------------------------------------------
Claim C4: temporary artifacts are always released and cleanup failures
never escalate.
--------------------------------------------------------------- -/

/-- C4, counterexample: in the base64 handler the `finally` unlink is
unguarded, so when deletion fails the primary error (here a too-short
`ValueError` that should have produced a 400) is replaced by the cleanup
failure, the response escalates to 500, and the artifact survives the
request. -/
theorem c4_counterexample :
    transcribe_base64_audio ⟨some "AAAA", none, none, none, none⟩
        (fun _ _ => .error (.valueError "Audio too short"))
        (fun _ => .ok ("", 1)) true
      = { status := 500, raised := some (.otherError "unlink failed"),
          tempCreated := true, tempDeleted := false } ∧
    some (PyExc.otherError "unlink failed") ≠
      some (PyExc.valueError "Audio too short") := by
  decide

/-- C4 (amended): deletion of the saved upload is attempted on every
success and failure path; in the upload handler and inside
`preprocess_audio` a deletion failure is swallowed and never changes the
primary outcome, but in the base64 handler the final unlink is
unguarded, so a deletion failure escalates (shown by the
counterexample). -/
theorem c4_theorem :
    (∀ pre rec, (transcribe_audio_file pre rec false).tempDeleted = true) ∧
    (∀ pre rec unlinkRaises,
        (transcribe_audio_file pre rec unlinkRaises).status =
          (transcribe_audio_file pre rec false).status ∧
        (transcribe_audio_file pre rec unlinkRaises).raised =
          (transcribe_audio_file pre rec false).raised) ∧
    (∀ (r : Base64TranscriptionRequest) pre rec,
        (transcribe_base64_audio r pre rec false).tempCreated = true →
        (transcribe_base64_audio r pre rec false).tempDeleted = true) ∧
    (∀ file_ext fileBytes convert wavRead,
        (preprocess_audio file_ext fileBytes convert wavRead true).result =
          (preprocess_audio file_ext fileBytes convert wavRead false).result) ∧
    (∀ file_ext fileBytes convert wavRead,
        (preprocess_audio file_ext fileBytes convert wavRead false).convDeleted =
          (preprocess_audio file_ext fileBytes convert wavRead false).convCreated) := by
  refine ⟨fun pre rec => rfl, fun pre rec u => ⟨rfl, rfl⟩, ?_, ?_, ?_⟩
  · intro r pre rec
    by_cases hval : validate_audio_field r = true
    · by_cases hs : get_audio_data r = ""
      · simp [transcribe_base64_audio, hval, hs]
      · cases hdec : b64decode (get_audio_data r) with
        | none => simp [transcribe_base64_audio, hval, hs, hdec]
        | some dt =>
          cases hpre : pre dt (resolveExt r.file_extension r.filename r.content_type dt) with
          | error e => simp [transcribe_base64_audio, hval, hs, hdec, hpre]
          | ok p =>
            obtain ⟨arr, dur⟩ := p
            cases hrec : rec arr with
            | error e => simp [transcribe_base64_audio, hval, hs, hdec, hpre, hrec]
            | ok t => simp [transcribe_base64_audio, hval, hs, hdec, hpre, hrec]
    · have hval2 : validate_audio_field r = false := by simpa using hval
      simp [transcribe_base64_audio, hval2]
  · intro file_ext fileBytes convert wavRead
    by_cases hc : shouldConvert file_ext (isWavHeader fileBytes) = true
    · cases convert with
      | error e => simp [preprocess_audio, hc]
      | ok u => simp [preprocess_audio, hc]
    · simp [preprocess_audio, hc]
  · intro file_ext fileBytes convert wavRead
    by_cases hc : shouldConvert file_ext (isWavHeader fileBytes) = true
    · cases convert with
      | error e => simp [preprocess_audio, hc]
      | ok u => simp [preprocess_audio, hc]
    · simp [preprocess_audio, hc]

/-- C4, witness: on a failure path of the base64 handler with working
deletion, the artifact is deleted. -/
theorem c4_witness :
    (transcribe_base64_audio ⟨some "AAAA", none, none, none, none⟩
        (fun _ _ => .error (.valueError "Audio too short"))
        (fun _ => .ok ("", 1)) false).tempDeleted = true :=
  c4_theorem.2.2.1 ⟨some "AAAA", none, none, none, none⟩
    (fun _ _ => .error (.valueError "Audio too short")) (fun _ => .ok ("", 1))
    (by decide)

/- ---------------------------------------------------------------
Claim C5: duration bounds.
--------------------------------------------------------------- -/

/-- `maxAbs` on a cons. -/
lemma maxAbs_cons (x : ℚ) (t : List ℚ) : maxAbs (x :: t) = max |x| (maxAbs t) := rfl

/-- A constant-one signal of positive length has peak 1. -/
lemma maxAbs_replicate_one (n : ℕ) (hn : 0 < n) :
    maxAbs (List.replicate n (1 : ℚ)) = 1 := by
  induction n with
  | zero => omega
  | succ m ih =>
    rcases Nat.eq_zero_or_pos m with h0 | hm
    · subst h0; simp [maxAbs]
    · rw [List.replicate_succ, maxAbs_cons, ih hm]
      simp

/-- The normalizer steps fix a constant-one mono signal at 16 kHz. -/
lemma normalizer_replicate_one (n : ℕ) (hn : 0 < n) :
    runNormalizerSteps 16000 .float (.mono (List.replicate n (1 : ℚ))) =
      .ok (List.replicate n 1) := by
  have hne : List.replicate n (1 : ℚ) ≠ [] := by
    intro h
    have := congrArg List.length h
    simp at this
    omega
  unfold runNormalizerSteps scaleAll downmix resampleStep normalizeStep
  simp [scaleSample, hne, maxAbs_replicate_one n hn]

/-- C5: duration validation raises the too-short error exactly when the
duration is strictly below 0.5 s, the too-long error exactly when it is
strictly above 30 s, and otherwise returns the audio unchanged (no
truncation or padding); on a 16 kHz constant signal, 7840 samples
(0.49 s) fail too-short, 8000 samples (0.50 s) pass, 480000 samples
(30.00 s) pass, and 480160 samples (30.01 s) fail too-long. -/
theorem c5_theorem :
    (∀ (a : List ℚ) (d : ℚ), d < 1/2 →
        validateLength a d = .error (.valueError "Audio too short")) ∧
    (∀ (a : List ℚ) (d : ℚ), ¬ d < 1/2 → d > 30 →
        validateLength a d = .error (.valueError "Audio too long")) ∧
    (∀ (a : List ℚ) (d : ℚ), ¬ d < 1/2 → ¬ d > 30 →
        validateLength a d = .ok (a, d)) ∧
    preprocessSamples 16000 .float (.mono (List.replicate 7840 1)) =
      .error (.valueError "Audio too short") ∧
    preprocessSamples 16000 .float (.mono (List.replicate 8000 1)) =
      .ok (List.replicate 8000 1, 1/2) ∧
    preprocessSamples 16000 .float (.mono (List.replicate 480000 1)) =
      .ok (List.replicate 480000 1, 30) ∧
    preprocessSamples 16000 .float (.mono (List.replicate 480160 1)) =
      .error (.valueError "Audio too long") := by
  refine ⟨?_, ?_, ?_, ?_, ?_, ?_, ?_⟩
  · intro a d h
    unfold validateLength
    rw [if_pos h]
  · intro a d h1 h2
    unfold validateLength
    rw [if_neg h1, if_pos h2]
  · intro a d h1 h2
    unfold validateLength
    rw [if_neg h1, if_neg h2]
  · rw [preprocessSamples, normalizer_replicate_one 7840 (by norm_num)]
    simp only [List.length_replicate, validateLength]
    norm_num
  · rw [preprocessSamples, normalizer_replicate_one 8000 (by norm_num)]
    simp only [List.length_replicate, validateLength]
    norm_num
  · rw [preprocessSamples, normalizer_replicate_one 480000 (by norm_num)]
    simp only [List.length_replicate, validateLength]
    norm_num
  · rw [preprocessSamples, normalizer_replicate_one 480160 (by norm_num)]
    simp only [List.length_replicate, validateLength]
    norm_num

/-- C5, witness: a 0.25 s duration fails too-short. -/
theorem c5_witness :
    validateLength [(1 : ℚ)] (1/4) = .error (.valueError "Audio too short") :=
  c5_theorem.1 [1] (1/4) (by norm_num)

/- ---------------------------------------------------------------
Claim C6: peak normalization.
--------------------------------------------------------------- -/

/-- C6, counterexample: on the empty sample sequence — an all-zero
signal in the claim's sense, reachable from a zero-length data chunk —
the peak-normalization step does not leave the samples unchanged: it
raises a `ValueError` (numpy maximum of a zero-size array) instead of
returning them. -/
theorem c6_counterexample :
    normalizeStep ([] : List ℚ) =
      .error (.valueError
        "zero-size array to reduction operation maximum which has no identity") ∧
    normalizeStep ([] : List ℚ) ≠ .ok [] := by
  constructor
  · rfl
  · intro h
    simp [normalizeStep] at h

/-- C6 (amended): for every sequence with positive peak, every sample is
divided by the peak and the resulting peak is exactly 1; a non-empty
all-zero sequence is left unchanged (the division branch, and hence any
division by zero, is never reached); the empty sequence instead raises
the numpy zero-size reduction error. -/
theorem c6_theorem :
    (∀ xs : List ℚ, maxAbs xs > 0 →
        normalizeStep xs = .ok (xs.map (fun x => x / maxAbs xs)) ∧
        maxAbs (xs.map (fun x => x / maxAbs xs)) = 1) ∧
    (∀ xs : List ℚ, xs ≠ [] → maxAbs xs = 0 → normalizeStep xs = .ok xs) := by
  constructor
  · intro xs h
    have hne : xs ≠ [] := by
      rintro rfl
      simp [maxAbs] at h
    refine ⟨by simp [normalizeStep, hne, h], ?_⟩
    rw [maxAbs_map_div xs (maxAbs xs) h]
    exact div_self (ne_of_gt h)
  · intro xs hne h0
    simp [normalizeStep, hne, h0]

/-- C6, witness: normalizing `[2]` divides by the peak 2 and yields peak
exactly 1. -/
theorem c6_witness :
    normalizeStep [(2 : ℚ)] = .ok ([(2 : ℚ)].map (fun x => x / maxAbs [(2 : ℚ)])) ∧
    maxAbs ([(2 : ℚ)].map (fun x => x / maxAbs [(2 : ℚ)])) = 1 :=
  c6_theorem.1 [2] (by norm_num [maxAbs])

/- ---------------------------------------------------------------
Claim C7: resampling sample count and the duration invariant.
--------------------------------------------------------------- -/

/-- C7: for a source rate other than 16000, resampling produces
`len * 16000 / sr` samples — natural floor division, which agrees with
the rational floor — and every successful preprocessing run reports
duration = final sample count / 16000. -/
theorem c7_theorem :
    (∀ (sr : ℕ) (xs : List ℚ), sr ≠ 16000 → 0 < sr →
        (resampleStep sr xs).length = xs.length * 16000 / sr ∧
        xs.length * 16000 / sr = ⌊((xs.length * 16000 : ℕ) : ℚ) / (sr : ℚ)⌋₊) ∧
    (∀ (sr : ℕ) (d : Dtype) (raw : RawSamples) (a : List ℚ) (dur : ℚ),
        preprocessSamples sr d raw = .ok (a, dur) → dur = (a.length : ℚ) / 16000) := by
  constructor
  · intro sr xs h hpos
    refine ⟨by simp [resampleStep, h, resampleTo], ?_⟩
    rw [Nat.floor_div_nat, Nat.floor_natCast]
  · intro sr d raw a dur h
    unfold preprocessSamples at h
    cases hrun : runNormalizerSteps sr d raw with
    | error e => rw [hrun] at h; exact Except.noConfusion h
    | ok a0 =>
      rw [hrun] at h
      dsimp only at h
      unfold validateLength at h
      by_cases h1 : ((a0.length : ℚ) / 16000) < 1/2
      · rw [if_pos h1] at h; exact Except.noConfusion h
      · rw [if_neg h1] at h
        by_cases h2 : ((a0.length : ℚ) / 16000) > 30
        · rw [if_pos h2] at h; exact Except.noConfusion h
        · rw [if_neg h2] at h
          injection h with h3
          injection h3 with ha hd
          rw [← hd, ← ha]

/-- C7, witness: 3 samples at 8000 Hz resample to 3·16000/8000 = 6
samples. -/
theorem c7_witness :
    (resampleStep 8000 [(0 : ℚ), 0, 0]).length = 6 := by
  have h := (c7_theorem.1 8000 [(0 : ℚ), 0, 0] (by decide) (by decide)).1
  simpa using h

/- ---------------------------------------------------------------
Claim C8: idempotence of the normalizer steps.
--------------------------------------------------------------- -/

/-- Every successful output of the peak-normalization step has peak
exactly 1 or is non-empty and all-zero. -/
lemma normalizeStep_ok_peak (xs a : List ℚ) (h : normalizeStep xs = .ok a) :
    maxAbs a = 1 ∨ (a ≠ [] ∧ maxAbs a = 0) := by
  unfold normalizeStep at h
  by_cases hne : xs = []
  · simp [hne] at h
  · by_cases hpos : maxAbs xs > 0
    · simp only [hne, if_false, hpos, if_true, Except.ok.injEq] at h
      left
      rw [← h, maxAbs_map_div xs (maxAbs xs) hpos]
      exact div_self (ne_of_gt hpos)
    · simp only [hne, if_false, hpos, Except.ok.injEq] at h
      right
      have h0 : maxAbs xs = 0 := le_antisymm (not_lt.mp hpos) (maxAbs_nonneg xs)
      exact ⟨h ▸ hne, h ▸ h0⟩

/-- The normalizer steps on an already-mono signal at 16 kHz reduce to
the peak-normalization step alone: the encoding conversion is the
identity on floats, there is no downmix, and no resampling happens at
the target rate. -/
lemma runNormalizerSteps_mono_16k (a : List ℚ) :
    runNormalizerSteps 16000 .float (.mono a) = normalizeStep a := by
  have hmap : List.map (scaleSample Dtype.float) a = a := by
    induction a with
    | nil => rfl
    | cons x t ih => simp [scaleSample, ih]
  unfold runNormalizerSteps scaleAll downmix resampleStep
  simp [hmap]

/-- A second run of the normalizer steps fixes any mono 16 kHz signal
whose peak is exactly 1 or which is non-empty and all-zero. -/
lemma normalizer_idem (a : List ℚ)
    (h : maxAbs a = 1 ∨ (a ≠ [] ∧ maxAbs a = 0)) :
    runNormalizerSteps 16000 .float (.mono a) = .ok a := by
  rw [runNormalizerSteps_mono_16k]
  cases h with
  | inl h1 =>
    have hne : a ≠ [] := by
      rintro rfl
      simp [maxAbs] at h1
    unfold normalizeStep
    rw [if_neg hne, if_pos (by rw [h1]; norm_num)]
    rw [h1]
    simp
  | inr h2 =>
    obtain ⟨hne, h0⟩ := h2
    unfold normalizeStep
    rw [if_neg hne, if_neg (by rw [h0]; norm_num)]

/-- C8, counterexample: the mono 16 kHz signal `[1/2]` already has peak
≤ 1, yet running the normalizer steps on it changes the peak from 1/2 to
1 — far beyond floating-point rounding — so the claim's "peak ≤ 1.0"
precondition does not give idempotence. -/
theorem c8_counterexample :
    runNormalizerSteps 16000 .float (.mono [(1 : ℚ)/2]) = .ok [1] ∧
    maxAbs [(1 : ℚ)/2] ≤ 1 ∧
    maxAbs [(1 : ℚ)] ≠ maxAbs [(1 : ℚ)/2] := by
  have hm : maxAbs [(1 : ℚ)/2] = 1/2 := by
    rw [maxAbs_cons]
    norm_num [maxAbs]
  have hm1 : maxAbs [(1 : ℚ)] = 1 := by
    rw [maxAbs_cons]
    norm_num [maxAbs]
  refine ⟨?_, by rw [hm]; norm_num, by rw [hm, hm1]; norm_num⟩
  rw [runNormalizerSteps_mono_16k]
  unfold normalizeStep
  rw [if_neg (by simp), if_pos (by rw [hm]; norm_num)]
  rw [hm]
  norm_num

/-- C8 (amended): running the normalizer steps a second time on any
successful output of a first run returns it exactly unchanged — sample
count and peak included — because such an output is mono, needs no
resampling at 16 kHz, and has peak exactly 1 or is all-zero; mere
"peak ≤ 1.0" is not preserved (see the counterexample). -/
theorem c8_theorem (sr : ℕ) (d : Dtype) (raw : RawSamples) (a : List ℚ)
    (h : runNormalizerSteps sr d raw = .ok a) :
    runNormalizerSteps 16000 .float (.mono a) = .ok a := by
  unfold runNormalizerSteps at h
  exact normalizer_idem a (normalizeStep_ok_peak _ a h)

/-- C8, witness: the output `[1]` of a first run on `[2]` is fixed by a
second run. -/
theorem c8_witness :
    runNormalizerSteps 16000 .float (.mono [(1 : ℚ)]) = .ok [(1 : ℚ)] := by
  have hfirst : runNormalizerSteps 16000 .float (.mono [(2 : ℚ)]) = .ok [1] := by
    have hm : maxAbs [(2 : ℚ)] = 2 := by
      rw [maxAbs_cons]
      norm_num [maxAbs]
    rw [runNormalizerSteps_mono_16k]
    unfold normalizeStep
    rw [if_neg (by simp), if_pos (by rw [hm]; norm_num)]
    rw [hm]
    norm_num
  exact c8_theorem 16000 .float (.mono [(2 : ℚ)]) [1] hfirst

/- ---------------------------------------------------------------
Claim C9: missing audio payload fails before any artifact exists.
--------------------------------------------------------------- -/

/-- C9: when both the legacy field `audio_base64` and the new field
`audio` are absent or empty, the pydantic validator rejects the request
with the missing-audio error and the handler body never runs, so no
temporary artifact is created (and none is left behind), whatever the
preprocessing, recognition and filesystem outcomes would have been. -/
theorem c9_theorem (r : Base64TranscriptionRequest)
    (pre : List ℕ → String → Except PyExc (List ℚ × ℚ))
    (rec : List ℚ → Except PyExc (String × ℚ)) (unlinkRaises : Bool)
    (h1 : strTruthy r.audio = false) (h2 : strTruthy r.audio_base64 = false) :
    validate_audio_field r = false ∧
    (transcribe_base64_audio r pre rec unlinkRaises).tempCreated = false ∧
    (transcribe_base64_audio r pre rec unlinkRaises).raised =
      some (.valueError "Either audio or audio_base64 field must be provided") := by
  have hv : validate_audio_field r = false := by
    simp [validate_audio_field, h1, h2]
  exact ⟨hv, by simp [transcribe_base64_audio, hv], by simp [transcribe_base64_audio, hv]⟩

/-- C9, witness: a request with an empty legacy field and an absent new
field is rejected with no artifact created. -/
theorem c9_witness :
    validate_audio_field ⟨none, some "", none, none, none⟩ = false ∧
    (transcribe_base64_audio ⟨none, some "", none, none, none⟩
        (fun _ _ => .ok ([1], 1)) (fun _ => .ok ("", 1)) false).tempCreated = false ∧
    (transcribe_base64_audio ⟨none, some "", none, none, none⟩
        (fun _ _ => .ok ([1], 1)) (fun _ => .ok ("", 1)) false).raised =
      some (.valueError "Either audio or audio_base64 field must be provided") :=
  c9_theorem ⟨none, some "", none, none, none⟩
    (fun _ _ => .ok ([1], 1)) (fun _ => .ok ("", 1)) false (by decide) (by decide)

/- ---------------------------------------------------------------
Claim C10: lenient base64 decoding.
--------------------------------------------------------------- -/

/-- A character the non-strict decoder pays attention to: a base64
alphabet character or the pad. -/
def isB64OrPad (c : Char) : Bool := (b64Index c).isSome || c = '='

/-- Characters outside the alphabet (and not the pad) leave the decoder
state unchanged: they are discarded. -/
lemma b64Step_invalid (st : B64State) (c : Char) (h : isB64OrPad c = false) :
    b64Step st c = st := by
  have h1 : b64Index c = none := by
    cases hb : b64Index c with
    | none => rfl
    | some v => simp [isB64OrPad, hb] at h
  have h2 : c ≠ '=' := by
    intro hc
    simp [isB64OrPad, hc] at h
  unfold b64Step
  by_cases hd : st.done = true
  · rw [if_pos hd]
  · rw [if_neg hd, if_neg h2, h1]

/-- Folding the decoder over a string visits exactly the alphabet and
pad characters. -/
lemma foldl_b64Step_filter (cs : List Char) (st : B64State) :
    cs.foldl b64Step st = (cs.filter isB64OrPad).foldl b64Step st := by
  induction cs generalizing st with
  | nil => rfl
  | cons c t ih =>
    cases hc : isB64OrPad c with
    | true => simp only [List.foldl, List.filter, hc]; exact ih (b64Step st c)
    | false =>
      simp only [List.foldl, List.filter, hc, b64Step_invalid st c hc]
      exact ih st

/-- One decoder step on an alphabet character from a live state advances
the quad position cyclically and keeps the decoder live. -/
lemma b64Step_valid_quad (q l p : ℕ) (acc0 : List ℕ) (c : Char) (v : ℕ)
    (hv : b64Index c = some v) (hq : q < 4) :
    (b64Step ⟨q, l, p, acc0, false⟩ c).done = false ∧
    (b64Step ⟨q, l, p, acc0, false⟩ c).quadPos = (q + 1) % 4 ∧
    (b64Step ⟨q, l, p, acc0, false⟩ c).quadPos < 4 := by
  have hcpad : c ≠ '=' := by
    rintro rfl
    rw [show b64Index '=' = none from rfl] at hv
    exact Option.noConfusion hv
  interval_cases q <;>
    refine ⟨?_, ?_, ?_⟩ <;>
      simp [b64Step, hcpad, hv]

/-- On alphabet-only input the decoder never terminates early and its
quad position advances cyclically with the input length. -/
lemma foldl_b64Step_valid (cs : List Char) :
    ∀ st : B64State, (∀ c ∈ cs, (b64Index c).isSome) → st.quadPos < 4 →
      st.done = false →
      (cs.foldl b64Step st).done = false ∧
      (cs.foldl b64Step st).quadPos = (st.quadPos + cs.length) % 4 ∧
      (cs.foldl b64Step st).quadPos < 4 := by
  induction cs with
  | nil =>
    intro st hall hq hd
    simpa [List.foldl] using ⟨hd, by omega, hq⟩
  | cons c t ih =>
    intro st hall hq hd
    have hc : (b64Index c).isSome := hall c (List.mem_cons_self c t)
    obtain ⟨v, hv⟩ := Option.isSome_iff_exists.mp hc
    obtain ⟨q, l, p, acc0, d⟩ := st
    simp only at hq hd
    subst hd
    have hnext := b64Step_valid_quad q l p acc0 c v hv hq
    obtain ⟨hnd, hnq, hnlt⟩ := hnext
    have htail : ∀ c0 ∈ t, (b64Index c0).isSome :=
      fun c0 hc0 => hall c0 (List.mem_cons_of_mem c hc0)
    have hdone2 : (b64Step ⟨q, l, p, acc0, false⟩ c).done = false := hnd
    have := ih (b64Step ⟨q, l, p, acc0, false⟩ c) htail hnlt hdone2
    rw [List.foldl_cons]
    refine ⟨this.1, ?_, this.2.2⟩
    rw [this.2.1, hnq, List.length_cons]
    show ((q + 1) % 4 + t.length) % 4 = (q + (t.length + 1)) % 4
    omega

/-- C10, counterexample: the payload `"QQ==é"` has data characters
forming one complete, correctly padded quad, so under the claimed rule
— characters outside the base64 alphabet are discarded rather than
rejected, and the invalid-encoding failure is raised only for incorrect
padding or length — it would decode to the single byte 65; the program
instead rejects the whole payload, because `base64.b64decode` on a
`str` first requires pure ASCII and raises `ValueError` on the
non-ASCII character. -/
theorem c10_counterexample :
    b64decode "QQ==é" = none ∧
    "QQ==é".data.all isAsciiChar = false ∧
    b64decodeList ("QQ==é".data.filter isB64OrPad) = some [65] := by
  decide

/-- C10 (amended): base64 decoding first requires the payload string to
be pure ASCII — any non-ASCII character anywhere makes decoding fail
with the invalid-encoding error, whatever the rest of the payload.
Within ASCII payloads decoding is lenient: decoding equals decoding of
the string filtered to alphabet and pad characters (non-alphabet ASCII
characters are discarded rather than rejected), on alphabet-only input
the failure occurs exactly when the number of data characters is not a
multiple of 4, and concretely the malformed ASCII payload `"a!b!c!d!"`
decodes silently to the three bytes of `"abcd"` while the all-alphabet
payload `"abc"` fails. -/
theorem c10_theorem :
    (∀ s : String, s.data.all isAsciiChar = false → b64decode s = none) ∧
    (∀ s : String, s.data.all isAsciiChar = true →
        b64decode s = b64decodeList (s.data.filter isB64OrPad)) ∧
    (∀ cs : List Char, (∀ c ∈ cs, (b64Index c).isSome) →
        ((b64decodeList cs).isSome ↔ cs.length % 4 = 0)) ∧
    b64decode "a!b!c!d!" = some [105, 183, 29] ∧
    b64decode "abc" = none := by
  refine ⟨?_, ?_, ?_, by decide, by decide⟩
  · intro s h
    simp [b64decode, h]
  · intro s h
    unfold b64decode b64decodeList
    rw [if_pos h, foldl_b64Step_filter]
  · intro cs hall
    have h := foldl_b64Step_valid cs b64Init hall (by decide) (by decide)
    simp only [b64decodeList]
    rw [h.1, h.2.1]
    by_cases hl : cs.length % 4 = 0 <;>
      simp [b64Init, hl]

/-- C10, witness: the ASCII payload `"ab=cd"` decodes exactly as its
filtered form does. -/
theorem c10_witness :
    b64decode "ab=cd" = b64decodeList ("ab=cd".data.filter isB64OrPad) :=
  c10_theorem.2.1 "ab=cd" (by decide)

end AiAppRec
